import Mathlib

/-!
Verification of the RouteGuard route-safety core.

The repository contains two backend variants of the same geofencing core:

* `website/src/Backend/backend.js`: `haversineDistance` (Earth radius
  6371000 m), `isRouteUnsafe` (nested loop over route coordinates and the
  zone list), and the `/api/reroute` handler which picks the first safe
  candidate with `routes.find(route => !isRouteUnsafe(route))`.
* `website/Backend/backend.js` (and its `part_006` twin): `distance`
  (spherical law of cosines, Earth radius 6378137 m), `inRedZone`,
  `routeUnsafe`.

Coordinates are modelled as real numbers; a route vertex is a
`(longitude, latitude)` pair exactly as in the GeoJSON arrays the code
destructures (`[lng, lat]`).  The module-level `redZones` constants are
modelled as explicit zone-list arguments (the loops read them verbatim);
the literal zone lists of both files are also defined below.
-/

open Real

noncomputable section

/-- JavaScript's `Math.atan2(y, x)` on real (non-NaN) arguments, ignoring
the sign of zero: the angle of the point `(x, y)` in `(-π, π]`. -/
def atan2 (y x : ℝ) : ℝ :=
  if 0 < x then arctan (y / x)
  else if x < 0 then
    (if 0 ≤ y then arctan (y / x) + π else arctan (y / x) - π)
  else if 0 < y then π / 2
  else if y < 0 then -(π / 2)
  else 0

/-- A restricted zone of `website/src/Backend/backend.js`:
`{ name, coordinates: [lat, lon], radius }`.  `lat` and `lon` are
`coordinates[0]` and `coordinates[1]`; `radius` is in meters. -/
structure Zone where
  name : String
  lat : ℝ
  lon : ℝ
  radius : ℝ

/-- A red zone of `website/Backend/backend.js`: `{ lat, lon, radius }`. -/
structure RedZone where
  lat : ℝ
  lon : ℝ
  radius : ℝ

/-- `haversineDistance(lat1, lon1, lat2, lon2)` of
`website/src/Backend/backend.js`: haversine great-circle distance in
meters against Earth radius `R = 6371e3`. -/
def haversineDistance (lat1 lon1 lat2 lon2 : ℝ) : ℝ :=
  let R : ℝ := 6371000
  let phi1 := lat1 * π / 180
  let phi2 := lat2 * π / 180
  let dPhi := (lat2 - lat1) * π / 180
  let dLam := (lon2 - lon1) * π / 180
  let a := sin (dPhi / 2) * sin (dPhi / 2) +
    cos phi1 * cos phi2 * sin (dLam / 2) * sin (dLam / 2)
  let c := 2 * atan2 (Real.sqrt a) (Real.sqrt (1 - a))
  R * c

/-- The `redZones` constant of `website/src/Backend/backend.js`. -/
def redZones : List Zone :=
  [⟨"Zone A (Delhi)", 28.6139, 77.2090, 5000⟩,
   ⟨"Zone B (Lucknow)", 26.8467, 80.9462, 4000⟩]

/-- `isRouteUnsafe(route)` of `website/src/Backend/backend.js`: for each
route coordinate `[lng, lat]` and each zone, return `true` as soon as
`haversineDistance(lat, lng, zone.coordinates[0], zone.coordinates[1]) <
zone.radius`; `false` after a full traversal.  The module-level `redZones`
list the loop reads is passed explicitly as `zones`. -/
def isRouteUnsafe (zones : List Zone) (coords : List (ℝ × ℝ)) : Bool :=
  coords.any fun c =>
    zones.any fun zone =>
      decide (haversineDistance c.2 c.1 zone.lat zone.lon < zone.radius)

/-- The candidate selection of the `/api/reroute` handler in
`website/src/Backend/backend.js`:
`data.routes.find(route => !isRouteUnsafe(route))`, with `none` standing
for the `"no_safe_alternatives_found"` response. -/
def selectSafe (zones : List Zone) (routes : List (List (ℝ × ℝ))) :
    Option (List (ℝ × ℝ)) :=
  routes.find? fun route => !isRouteUnsafe zones route

/-- The nested loop of `isRouteUnsafe`, instrumented to report the pair it
short-circuits on: the first route coordinate, in traversal order,
violating some zone, together with the first such zone in zone-list
order.  `isRouteUnsafe` itself discards this pair and returns a bare
boolean. -/
def firstViolation (zones : List Zone) (coords : List (ℝ × ℝ)) :
    Option ((ℝ × ℝ) × Zone) :=
  coords.findSome? fun c =>
    (zones.find? fun zone =>
      decide (haversineDistance c.2 c.1 zone.lat zone.lon < zone.radius)).map
      fun zone => (c, zone)

/-- The `R` constant of `website/Backend/backend.js`: Earth's radius in
meters. -/
def R : ℝ := 6378137

/-- `toRad(deg)` of `website/Backend/backend.js`. -/
def toRad (deg : ℝ) : ℝ := deg * π / 180

/-- `distance(lat1, lon1, lat2, lon2)` of `website/Backend/backend.js`:
spherical law of cosines against Earth radius `R = 6378137`. -/
def distance (lat1 lon1 lat2 lon2 : ℝ) : ℝ :=
  Real.arccos (sin (toRad lat1) * sin (toRad lat2) +
    cos (toRad lat1) * cos (toRad lat2) * cos (toRad (lon2 - lon1))) * R

/-- The `redZones` constant of `website/Backend/backend.js`. -/
def backendRedZones : List RedZone :=
  [⟨28.6139, 77.2090, 700⟩, ⟨26.8467, 80.9462, 500⟩]

/-- `inRedZone(lat, lon)` of `website/Backend/backend.js`:
`redZones.some(zone => distance(lat, lon, zone.lat, zone.lon) < zone.radius)`,
with the zone list passed explicitly. -/
def inRedZone (zones : List RedZone) (lat lon : ℝ) : Bool :=
  zones.any fun zone => decide (distance lat lon zone.lat zone.lon < zone.radius)

/-- `routeUnsafe(route)` of `website/Backend/backend.js`:
`route.geometry.coordinates.some(([lon, lat]) => inRedZone(lat, lon))`. -/
def routeUnsafe (zones : List RedZone) (coords : List (ℝ × ℝ)) : Bool :=
  coords.any fun c => inRedZone zones c.2 c.1

/-- Test fixture: a zone centered on the origin with a 700 m radius. -/
def testZone : Zone := ⟨"Zone A", 0, 0, 700⟩

/-- Test fixture: a second zone with a different center. -/
def testZoneB : Zone := ⟨"Zone B", 5, 5, 700⟩

/-- Test fixture: a one-vertex route sitting exactly on `testZone`'s
center. -/
def routeCenter : List (ℝ × ℝ) := [(0, 0)]

/-- Test fixture: a one-vertex route sitting exactly on `testZoneB`'s
center. -/
def routeCenterB : List (ℝ × ℝ) := [(5, 5)]

/-- Test fixture: a one-vertex route on the equator at longitude 180°,
antipodal to `testZone`'s center. -/
def routeFar : List (ℝ × ℝ) := [(180, 0)]

/-- Test fixture: a red zone whose boundary passes exactly through the
origin: center `(0, 90)` and radius `π/2 · 6378137`, the law-of-cosines
distance from the origin to the center. -/
def boundaryZone : RedZone := ⟨0, 90, π / 2 * 6378137⟩

end

-- ### Helper lemmas ###

theorem arctan_nonneg {x : ℝ} (h : 0 ≤ x) : 0 ≤ arctan x := by
  have := Real.arctan_strictMono.monotone h
  rwa [Real.arctan_zero] at this

theorem atan2_nonneg {y x : ℝ} (hy : 0 ≤ y) (hx : 0 ≤ x) : 0 ≤ atan2 y x := by
  have hx' : ¬ x < 0 := not_lt.mpr hx
  have hy' : ¬ y < 0 := not_lt.mpr hy
  unfold atan2
  by_cases h1 : 0 < x
  · rw [if_pos h1]
    exact arctan_nonneg (div_nonneg hy h1.le)
  · rw [if_neg h1, if_neg hx']
    by_cases h2 : 0 < y
    · rw [if_pos h2]
      positivity
    · rw [if_neg h2, if_neg hy']

theorem atan2_zero_one : atan2 0 1 = 0 := by
  simp [atan2, Real.arctan_zero]

theorem atan2_one_zero : atan2 1 0 = π / 2 := by
  norm_num [atan2]

theorem atan2_sin_cos {t : ℝ} (h0 : 0 ≤ t) (h1 : t ≤ π / 2) :
    atan2 (sin t) (cos t) = t := by
  rcases eq_or_lt_of_le h1 with heq | hlt
  · subst heq
    simp [atan2, Real.sin_pi_div_two, Real.cos_pi_div_two]
  · have hcos : 0 < cos t := by
      apply Real.cos_pos_of_mem_Ioo
      constructor
      · linarith [Real.pi_pos]
      · exact hlt
    rw [atan2, if_pos hcos, ← Real.tan_eq_sin_div_cos]
    exact Real.arctan_tan (by linarith [Real.pi_pos]) hlt

theorem sqrt_sin_sq {t : ℝ} (h0 : 0 ≤ t) (h1 : t ≤ π / 2) :
    Real.sqrt (sin t * sin t) = sin t :=
  Real.sqrt_mul_self (Real.sin_nonneg_of_nonneg_of_le_pi h0 (by linarith [Real.pi_pos]))

theorem sqrt_one_sub_sin_sq {t : ℝ} (h0 : 0 ≤ t) (h1 : t ≤ π / 2) :
    Real.sqrt (1 - sin t * sin t) = cos t := by
  have h2 : 1 - sin t * sin t = cos t * cos t := by
    nlinarith [Real.sin_sq_add_cos_sq t]
  rw [h2]
  exact Real.sqrt_mul_self (Real.cos_nonneg_of_mem_Icc ⟨by linarith [Real.pi_pos], h1⟩)

theorem two_atan2_hav {t : ℝ} (h0 : 0 ≤ t) (h1 : t ≤ π / 2) :
    2 * atan2 (Real.sqrt (sin t * sin t)) (Real.sqrt (1 - sin t * sin t)) = 2 * t := by
  rw [sqrt_sin_sq h0 h1, sqrt_one_sub_sin_sq h0 h1, atan2_sin_cos h0 h1]

/-- The haversine distance from a point to itself is zero. -/
theorem haversineDistance_self (lat lon : ℝ) : haversineDistance lat lon lat lon = 0 := by
  simp [haversineDistance, atan2_zero_one]

/-- The haversine distance is non-negative on all real inputs. -/
theorem haversineDistance_nonneg (lat1 lon1 lat2 lon2 : ℝ) :
    0 ≤ haversineDistance lat1 lon1 lat2 lon2 := by
  simp only [haversineDistance]
  apply mul_nonneg (by norm_num : (0:ℝ) ≤ 6371000)
  apply mul_nonneg (by norm_num : (0:ℝ) ≤ 2)
  exact atan2_nonneg (Real.sqrt_nonneg _) (Real.sqrt_nonneg _)

/-- The haversine distance between two equatorial points `d` degrees of
longitude apart (`0 ≤ d ≤ 180`) is `6371000 · (d·π/180)`. -/
theorem haversineDistance_equator {d : ℝ} (h0 : 0 ≤ d) (h1 : d ≤ 180) :
    haversineDistance 0 0 0 d = 6371000 * (d * π / 180) := by
  have ht0 : 0 ≤ d * π / 360 := by positivity
  have ht1 : d * π / 360 ≤ π / 2 := by nlinarith [Real.pi_pos]
  have key := two_atan2_hav ht0 ht1
  simp only [haversineDistance, sub_self, zero_mul, mul_zero, zero_div, Real.sin_zero,
    Real.cos_zero, zero_sub, sub_zero, zero_add, one_mul, mul_one]
  rw [show d * π / 180 / 2 = d * π / 360 by ring]
  rw [key]
  ring

/-- The haversine distance from the origin to `(lat 0, lon 180)` is half
the Earth's circumference, `6371000 · π`. -/
theorem haversineDistance_lon180 : haversineDistance 0 180 0 0 = 6371000 * π := by
  simp only [haversineDistance, sub_self, zero_mul, mul_zero, zero_div, Real.sin_zero,
    Real.cos_zero, zero_sub, sub_zero, zero_add, one_mul, mul_one]
  rw [show (-180 : ℝ) * π / 180 / 2 = -(π / 2) by ring, Real.sin_neg, Real.sin_pi_div_two]
  norm_num [Real.sqrt_one, Real.sqrt_zero, atan2_one_zero]
  ring

/-- The haversine distance from the out-of-range point `(lat 180, lon 0)`
to the origin is `6371000 · π`: the code evaluates it like any other. -/
theorem haversineDistance_lat180 : haversineDistance 180 0 0 0 = 6371000 * π := by
  simp only [haversineDistance, sub_self, zero_mul, mul_zero, zero_div, Real.sin_zero,
    Real.cos_zero, zero_sub, sub_zero, zero_add, one_mul, mul_one]
  rw [show (-180 : ℝ) * π / 180 / 2 = -(π / 2) by ring, Real.sin_neg, Real.sin_pi_div_two]
  norm_num [Real.sqrt_one, Real.sqrt_zero, atan2_one_zero]
  ring

theorem not_half_circumference_lt_700 : ¬ (6371000 * π < 700) := by
  nlinarith [Real.pi_gt_three]

/-- The law-of-cosines distance from a point to itself is zero. -/
theorem distance_self (lat lon : ℝ) : distance lat lon lat lon = 0 := by
  simp only [distance, toRad, sub_self, zero_mul, zero_div, Real.cos_zero, mul_one]
  rw [show sin (lat * π / 180) * sin (lat * π / 180) +
      cos (lat * π / 180) * cos (lat * π / 180) = 1 by
    nlinarith [Real.sin_sq_add_cos_sq (lat * π / 180)]]
  rw [Real.arccos_one, zero_mul]

/-- The law-of-cosines distance is non-negative on all real inputs. -/
theorem distance_nonneg (lat1 lon1 lat2 lon2 : ℝ) : 0 ≤ distance lat1 lon1 lat2 lon2 :=
  mul_nonneg (Real.arccos_nonneg _) (by norm_num [R])

/-- The law-of-cosines distance between two equatorial points `d` degrees
of longitude apart (`0 ≤ d ≤ 180`) is `(d·π/180) · 6378137`. -/
theorem distance_equator {d : ℝ} (h0 : 0 ≤ d) (h1 : d ≤ 180) :
    distance 0 0 0 d = d * π / 180 * 6378137 := by
  have ha : 0 ≤ d * π / 180 := by positivity
  have hb : d * π / 180 ≤ π := by nlinarith [Real.pi_pos]
  simp only [distance, toRad, R, zero_mul, zero_div, Real.sin_zero, Real.cos_zero,
    sub_zero, one_mul, zero_add]
  rw [Real.arccos_cos ha hb]

/-- The law-of-cosines distance from the origin to `boundaryZone`'s center
`(lat 0, lon 90)` is exactly `boundaryZone`'s radius. -/
theorem distance_boundary : distance 0 0 0 90 = π / 2 * 6378137 := by
  rw [distance_equator (by norm_num) (by norm_num)]
  ring

/-- Loop ↔ existential: `isRouteUnsafe` returns `true` exactly when some
route coordinate lies strictly within some zone's radius. -/
theorem isRouteUnsafe_eq_true_iff (zones : List Zone) (coords : List (ℝ × ℝ)) :
    isRouteUnsafe zones coords = true ↔
      ∃ c ∈ coords, ∃ z ∈ zones, haversineDistance c.2 c.1 z.lat z.lon < z.radius := by
  simp [isRouteUnsafe]

theorem isRouteUnsafe_eq_false_iff (zones : List Zone) (coords : List (ℝ × ℝ)) :
    isRouteUnsafe zones coords = false ↔
      ∀ c ∈ coords, ∀ z ∈ zones, ¬ haversineDistance c.2 c.1 z.lat z.lon < z.radius := by
  rw [← Bool.not_eq_true, isRouteUnsafe_eq_true_iff]
  push_neg
  tauto

theorem inRedZone_eq_true_iff (zones : List RedZone) (lat lon : ℝ) :
    inRedZone zones lat lon = true ↔
      ∃ z ∈ zones, distance lat lon z.lat z.lon < z.radius := by
  simp [inRedZone]

theorem routeUnsafe_eq_true_iff (zones : List RedZone) (coords : List (ℝ × ℝ)) :
    routeUnsafe zones coords = true ↔
      ∃ c ∈ coords, ∃ z ∈ zones, distance c.2 c.1 z.lat z.lon < z.radius := by
  simp [routeUnsafe, inRedZone]

/-- A successful `find?` splits the list at the first hit: everything
before the returned element fails the test. -/
theorem find?_eq_some_split {α : Type _} {p : α → Bool} {l : List α} {a : α}
    (h : l.find? p = some a) :
    ∃ l1 l2, l = l1 ++ a :: l2 ∧ ∀ x ∈ l1, p x = false := by
  induction l with
  | nil => simp at h
  | cons b t ih =>
    by_cases hb : p b = true
    · rw [List.find?_cons_of_pos _ hb] at h
      obtain rfl : b = a := by simpa using h
      exact ⟨[], t, rfl, by simp⟩
    · rw [List.find?_cons_of_neg _ hb] at h
      obtain ⟨l1, l2, rfl, hall⟩ := ih h
      refine ⟨b :: l1, l2, rfl, ?_⟩
      intro x hx
      rcases List.mem_cons.mp hx with rfl | hx'
      · exact Bool.not_eq_true _ ▸ (by simpa using hb)
      · exact hall x hx'

/-- If some element of a list satisfies `p` then `find?` succeeds. -/
theorem exists_find?_eq_some {α : Type _} {p : α → Bool} {l : List α}
    (h : l.any p = true) : ∃ a, l.find? p = some a := by
  cases hf : l.find? p with
  | some a => exact ⟨a, rfl⟩
  | none =>
    rw [List.find?_eq_none] at hf
    rw [List.any_eq_true] at h
    obtain ⟨x, hx, hpx⟩ := h
    exact absurd hpx (hf x hx)

/-- A one-vertex route on `testZone`'s center is flagged unsafe. -/
theorem unsafe_center : isRouteUnsafe [testZone] routeCenter = true := by
  rw [isRouteUnsafe_eq_true_iff]
  refine ⟨(0, 0), by simp [routeCenter], testZone, by simp, ?_⟩
  show haversineDistance 0 0 0 0 < 700
  rw [haversineDistance_self]
  norm_num

/-- A one-vertex route on `testZoneB`'s center is flagged unsafe. -/
theorem unsafe_centerB : isRouteUnsafe [testZoneB] routeCenterB = true := by
  rw [isRouteUnsafe_eq_true_iff]
  refine ⟨(5, 5), by simp [routeCenterB], testZoneB, by simp, ?_⟩
  show haversineDistance 5 5 5 5 < 700
  rw [haversineDistance_self]
  norm_num

/-- The antipodal one-vertex route is classified safe against `testZone`. -/
theorem safe_routeFar : isRouteUnsafe [testZone] routeFar = false := by
  rw [isRouteUnsafe_eq_false_iff]
  intro c hc z hz
  obtain rfl : c = ((180 : ℝ), (0 : ℝ)) := by simpa [routeFar] using hc
  obtain rfl : z = testZone := by simpa using hz
  show ¬ haversineDistance 0 180 0 0 < 700
  rw [haversineDistance_lon180]
  exact not_half_circumference_lt_700

/-- The out-of-range point `(lng 0, lat 180)` is evaluated like any other
and its route is classified safe against `testZone`. -/
theorem safe_outOfRange : isRouteUnsafe [testZone] [(0, 180)] = false := by
  rw [isRouteUnsafe_eq_false_iff]
  intro c hc z hz
  obtain rfl : c = ((0 : ℝ), (180 : ℝ)) := by simpa using hc
  obtain rfl : z = testZone := by simpa using hz
  show ¬ haversineDistance 180 0 0 0 < 700
  rw [haversineDistance_lat180]
  exact not_half_circumference_lt_700

/-- single-zone, single-vertex evaluation of `firstViolation` on a hit. -/
theorem firstViolation_singleton (z : Zone) (c : ℝ × ℝ)
    (h : haversineDistance c.2 c.1 z.lat z.lon < z.radius) :
    firstViolation [z] [c] = some (c, z) := by
  unfold firstViolation
  rw [List.findSome?_cons, List.find?_cons_of_pos _ (by rw [decide_eq_true_eq]; exact h)]
  rfl

/-- When the classifier answers `true`, the instrumented loop produces the
first violating coordinate/zone pair, and that pair is a genuine hit. -/
theorem isRouteUnsafe_firstViolation (zones : List Zone) (coords : List (ℝ × ℝ))
    (h : isRouteUnsafe zones coords = true) :
    ∃ p z, firstViolation zones coords = some (p, z) ∧ p ∈ coords ∧ z ∈ zones ∧
      haversineDistance p.2 p.1 z.lat z.lon < z.radius := by
  induction coords with
  | nil => simp [isRouteUnsafe] at h
  | cons c cs ih =>
    by_cases hc : (zones.any fun zone =>
        decide (haversineDistance c.2 c.1 zone.lat zone.lon < zone.radius)) = true
    · obtain ⟨z, hz⟩ := exists_find?_eq_some hc
      refine ⟨c, z, ?_, List.mem_cons_self c cs, List.mem_of_find?_eq_some hz, ?_⟩
      · unfold firstViolation
        rw [List.findSome?_cons, hz]
        rfl
      · have hp := List.find?_some hz
        rwa [decide_eq_true_eq] at hp
    · have hsplit : isRouteUnsafe zones (c :: cs) =
          ((zones.any fun zone =>
            decide (haversineDistance c.2 c.1 zone.lat zone.lon < zone.radius)) ||
            isRouteUnsafe zones cs) := by
        simp [isRouteUnsafe, List.any_cons]
      rw [hsplit] at h
      have h' : isRouteUnsafe zones cs = true := by
        rcases Bool.or_eq_true_iff.mp h with h1 | h2
        · exact absurd h1 hc
        · exact h2
      obtain ⟨p, z, h1, h2, h3, h4⟩ := ih h'
      refine ⟨p, z, ?_, List.mem_cons_of_mem c h2, h3, h4⟩
      have hnone : (zones.find? fun zone =>
          decide (haversineDistance c.2 c.1 zone.lat zone.lon < zone.radius)) = none := by
        rw [List.find?_eq_none]
        intro x hx hpx
        exact hc (List.any_eq_true.mpr ⟨x, hx, hpx⟩)
      unfold firstViolation at h1 ⊢
      rw [List.findSome?_cons, hnone]
      simpa using h1

/-- Evaluation of the reroute selection on a concrete candidate set whose
first candidate is unsafe and whose second is safe. -/
theorem selectSafe_eval : selectSafe [testZone] [routeCenter, routeFar] = some routeFar := by
  unfold selectSafe
  rw [List.find?_cons_of_neg _ (by simp [unsafe_center]),
    List.find?_cons_of_pos _ (by simp [safe_routeFar])]

theorem routeUnsafe_eq_false_iff (zones : List RedZone) (coords : List (ℝ × ℝ)) :
    routeUnsafe zones coords = false ↔
      ∀ c ∈ coords, ∀ z ∈ zones, ¬ distance c.2 c.1 z.lat z.lon < z.radius := by
  rw [← Bool.not_eq_true, routeUnsafe_eq_true_iff]
  push_neg
  tauto

-- ### Claim theorems ###

/-- C1: the Route Safety Classifier returns SAFE iff no polyline vertex
lies strictly within the radius of any restricted zone; its UNSAFE result
is equivalent to the existence of a vertex/zone pair with
`distance < radius`.  Stated for both classifier variants
(`isRouteUnsafe` with `haversineDistance`, `routeUnsafe` with the
law-of-cosines `distance`). -/
theorem classifier_safe_iff_no_containment :
    ∀ (zones : List Zone) (coords : List (ℝ × ℝ)),
      (isRouteUnsafe zones coords = true ↔
        ∃ c ∈ coords, ∃ z ∈ zones, haversineDistance c.2 c.1 z.lat z.lon < z.radius) ∧
      (isRouteUnsafe zones coords = false ↔
        ∀ c ∈ coords, ∀ z ∈ zones, ¬ haversineDistance c.2 c.1 z.lat z.lon < z.radius) ∧
      ∀ zones2 : List RedZone,
        (routeUnsafe zones2 coords = true ↔
          ∃ c ∈ coords, ∃ z ∈ zones2, distance c.2 c.1 z.lat z.lon < z.radius) ∧
        (routeUnsafe zones2 coords = false ↔
          ∀ c ∈ coords, ∀ z ∈ zones2, ¬ distance c.2 c.1 z.lat z.lon < z.radius) :=
  fun zones coords =>
    ⟨isRouteUnsafe_eq_true_iff zones coords, isRouteUnsafe_eq_false_iff zones coords,
      fun zones2 =>
        ⟨routeUnsafe_eq_true_iff zones2 coords, routeUnsafe_eq_false_iff zones2 coords⟩⟩

/-- C2: the Zone Containment Check answers `true` iff
`distance(point, center) < radius`, with strict inequality: a point whose
distance equals the radius is not contained, and a route that never comes
strictly closer than a zone's boundary is classified SAFE. -/
theorem containment_strict_inequality :
    ∀ (lat lon : ℝ) (z : RedZone),
      (inRedZone [z] lat lon = true ↔ distance lat lon z.lat z.lon < z.radius) ∧
      (distance lat lon z.lat z.lon = z.radius → inRedZone [z] lat lon = false) ∧
      ∀ coords : List (ℝ × ℝ),
        (∀ c ∈ coords, z.radius ≤ distance c.2 c.1 z.lat z.lon) →
          routeUnsafe [z] coords = false := by
  intro lat lon z
  have hiff : inRedZone [z] lat lon = true ↔ distance lat lon z.lat z.lon < z.radius := by
    rw [inRedZone_eq_true_iff]
    simp
  refine ⟨hiff, ?_, ?_⟩
  · intro heq
    have hne : ¬ inRedZone [z] lat lon = true := by
      rw [hiff, heq]
      exact lt_irrefl _
    simpa using hne
  · intro coords hall
    rw [routeUnsafe_eq_false_iff]
    intro c hc z2 hz2
    obtain rfl : z2 = z := by simpa using hz2
    exact not_lt.mpr (hall c hc)

/-- C2 witness: the origin sits exactly on `boundaryZone`'s boundary
(`distance = radius`), is not contained, and a route consisting of that
boundary point is classified SAFE. -/
theorem containment_strict_inequality_witness :
    inRedZone [boundaryZone] 0 0 = false ∧ routeUnsafe [boundaryZone] routeCenter = false := by
  constructor
  · apply (containment_strict_inequality 0 0 boundaryZone).2.1
    show distance 0 0 0 90 = π / 2 * 6378137
    exact distance_boundary
  · apply (containment_strict_inequality 0 0 boundaryZone).2.2 routeCenter
    intro c hc
    obtain rfl : c = ((0 : ℝ), (0 : ℝ)) := by simpa [routeCenter] using hc
    show (π / 2 * 6378137 : ℝ) ≤ distance 0 0 0 90
    rw [distance_boundary]

/-- C3: the Alternative Route Selector returns the first provider-ranked
candidate the classifier marks SAFE: the returned route is SAFE and every
candidate preceding it in provider order is UNSAFE. -/
theorem selector_first_safe :
    ∀ (zones : List Zone) (routes : List (List (ℝ × ℝ))) (r : List (ℝ × ℝ)),
      selectSafe zones routes = some r →
        isRouteUnsafe zones r = false ∧
        ∃ pre post, routes = pre ++ r :: post ∧
          ∀ r2 ∈ pre, isRouteUnsafe zones r2 = true := by
  intro zones routes r h
  unfold selectSafe at h
  constructor
  · have hr := List.find?_some h
    simpa using hr
  · obtain ⟨pre, post, heq, hall⟩ := find?_eq_some_split h
    refine ⟨pre, post, heq, fun r2 hr2 => ?_⟩
    have := hall r2 hr2
    simpa using this

/-- C3 witness: on the candidate set `[routeCenter, routeFar]` against
`testZone`, the selector returns the safe second candidate and the first
candidate is unsafe. -/
theorem selector_first_safe_witness :
    isRouteUnsafe [testZone] routeFar = false ∧
    ∃ pre post, [routeCenter, routeFar] = pre ++ routeFar :: post ∧
      ∀ r2 ∈ pre, isRouteUnsafe [testZone] r2 = true :=
  selector_first_safe [testZone] [routeCenter, routeFar] routeFar selectSafe_eval

/-- C4: when every candidate route contains a vertex strictly inside some
restricted zone, the selector returns the distinguished no-safe-alternative
outcome (modelled `none`, the `"no_safe_alternatives_found"` response), not
a route. -/
theorem selector_no_safe_alternative :
    ∀ (zones : List Zone) (routes : List (List (ℝ × ℝ))),
      (∀ r ∈ routes, ∃ c ∈ r, ∃ z ∈ zones,
        haversineDistance c.2 c.1 z.lat z.lon < z.radius) →
        selectSafe zones routes = none := by
  intro zones routes h
  unfold selectSafe
  rw [List.find?_eq_none]
  intro r hr
  have hu : isRouteUnsafe zones r = true := (isRouteUnsafe_eq_true_iff _ _).mpr (h r hr)
  simp [hu]

/-- C4 witness: a candidate set whose only route crosses `testZone`'s
center yields `none`. -/
theorem selector_no_safe_alternative_witness :
    selectSafe [testZone] [routeCenter] = none := by
  apply selector_no_safe_alternative
  intro r hr
  obtain rfl : r = routeCenter := by simpa using hr
  refine ⟨(0, 0), by simp [routeCenter], testZone, by simp, ?_⟩
  show haversineDistance 0 0 0 0 < 700
  rw [haversineDistance_self]
  norm_num

/-- C5: both Geodesic Distance Functions are total real-valued functions
returning a non-negative number, and return 0 for coincident points.  (In
this real-number model every value is finite; the functions have no error
path.) -/
theorem distance_total_nonneg_zero_self :
    (∀ lat1 lon1 lat2 lon2 : ℝ, 0 ≤ haversineDistance lat1 lon1 lat2 lon2) ∧
    (∀ lat lon : ℝ, haversineDistance lat lon lat lon = 0) ∧
    (∀ lat1 lon1 lat2 lon2 : ℝ, 0 ≤ distance lat1 lon1 lat2 lon2) ∧
    (∀ lat lon : ℝ, distance lat lon lat lon = 0) :=
  ⟨haversineDistance_nonneg, haversineDistance_self, distance_nonneg, distance_self⟩

/-- C6: classifying a reversed polyline yields the same verdict as
classifying the original, for both classifier variants. -/
theorem classify_reverse_invariant :
    ∀ (zones : List Zone) (zones2 : List RedZone) (coords : List (ℝ × ℝ)),
      isRouteUnsafe zones coords.reverse = isRouteUnsafe zones coords ∧
      routeUnsafe zones2 coords.reverse = routeUnsafe zones2 coords := by
  intro zones zones2 coords
  constructor
  · simp [isRouteUnsafe, List.any_reverse]
  · simp [routeUnsafe, List.any_reverse]

/-- C7 counterexample: the classifier's UNSAFE verdict is the bare boolean
`true` and carries no zone or point identity, so no extraction function
can recover the first violating point/zone pair from the returned
verdict: two inputs whose first violating pairs differ produce the
identical verdict. -/
theorem verdict_carries_no_zone_identity :
    ¬ ∃ report : Bool → Option ((ℝ × ℝ) × Zone),
        ∀ (zones : List Zone) (coords : List (ℝ × ℝ)),
          report (isRouteUnsafe zones coords) = firstViolation zones coords := by
  rintro ⟨report, hrep⟩
  have hhitA : haversineDistance ((0:ℝ),(0:ℝ)).2 ((0:ℝ),(0:ℝ)).1 testZone.lat testZone.lon <
      testZone.radius := by
    show haversineDistance 0 0 0 0 < 700
    rw [haversineDistance_self]
    norm_num
  have hhitB : haversineDistance ((5:ℝ),(5:ℝ)).2 ((5:ℝ),(5:ℝ)).1 testZoneB.lat testZoneB.lon <
      testZoneB.radius := by
    show haversineDistance 5 5 5 5 < 700
    rw [haversineDistance_self]
    norm_num
  have h1 := hrep [testZone] routeCenter
  rw [unsafe_center, show routeCenter = [((0:ℝ), (0:ℝ))] from rfl,
    firstViolation_singleton testZone ((0:ℝ), (0:ℝ)) hhitA] at h1
  have h2 := hrep [testZoneB] routeCenterB
  rw [unsafe_centerB, show routeCenterB = [((5:ℝ), (5:ℝ))] from rfl,
    firstViolation_singleton testZoneB ((5:ℝ), (5:ℝ)) hhitB] at h2
  rw [h1] at h2
  simp [testZone, testZoneB, Prod.ext_iff] at h2

/-- C7 amended: whenever the classifier returns UNSAFE there exists a
first violating point/zone pair under the traversal order (the pair its
loop short-circuits on, produced by the instrumented `firstViolation`),
but the classifier's own return value is only the boolean. -/
theorem unsafe_has_first_violation :
    ∀ (zones : List Zone) (coords : List (ℝ × ℝ)),
      isRouteUnsafe zones coords = true →
        ∃ p z, firstViolation zones coords = some (p, z) ∧ p ∈ coords ∧ z ∈ zones ∧
          haversineDistance p.2 p.1 z.lat z.lon < z.radius :=
  isRouteUnsafe_firstViolation

/-- C7 amended witness: applied to the unsafe route through `testZone`'s
center. -/
theorem unsafe_has_first_violation_witness :
    ∃ p z, firstViolation [testZone] routeCenter = some (p, z) ∧ p ∈ routeCenter ∧
      z ∈ [testZone] ∧ haversineDistance p.2 p.1 z.lat z.lon < z.radius :=
  unsafe_has_first_violation [testZone] routeCenter unsafe_center

/-- C8 counterexample: the core performs no input validation: both
classifiers return the SAFE verdict `false` for the empty polyline instead
of rejecting it, and the out-of-range point `(lat 180)` is evaluated like
any other and yields a verdict. -/
theorem no_input_validation_counterexample :
    isRouteUnsafe redZones [] = false ∧ routeUnsafe backendRedZones [] = false ∧
    isRouteUnsafe [testZone] [(0, 180)] = false :=
  ⟨rfl, rfl, safe_outOfRange⟩

/-- C8 amended: the core rejects nothing: an empty polyline is classified
SAFE by both classifier variants (for every zone set), and out-of-range
coordinates are evaluated like any other point rather than raising an
InvalidInput error. -/
theorem no_input_validation :
    (∀ zones : List Zone, isRouteUnsafe zones [] = false) ∧
    (∀ zones : List RedZone, routeUnsafe zones [] = false) ∧
    isRouteUnsafe [testZone] [(0, 180)] = false :=
  ⟨fun _ => rfl, fun _ => rfl, safe_outOfRange⟩

/-- C9 counterexample: at the regional-scale equatorial pair one degree of
longitude apart (≈111 km), the law-of-cosines implementation exceeds the
haversine implementation by more than 0.1% — the two fix different Earth
radii (6378137 m vs 6371000 m). -/
theorem radius_mismatch_counterexample :
    haversineDistance 0 0 0 1 * (1001 / 1000) < distance 0 0 0 1 := by
  rw [haversineDistance_equator (by norm_num) (by norm_num),
    distance_equator (by norm_num) (by norm_num)]
  nlinarith [Real.pi_pos]

/-- C9 amended: on equatorial pairs up to 180° apart the two
implementations compute the identical central angle and differ exactly by
the ratio of their Earth radii, `6378137 / 6371000` ≈ 1.00112 — a
divergence of ≈0.112%, slightly above 0.1%. -/
theorem equal_central_angle_different_radii :
    ∀ d : ℝ, 0 ≤ d → d ≤ 180 →
      distance 0 0 0 d * 6371000 = haversineDistance 0 0 0 d * 6378137 := by
  intro d h0 h1
  rw [haversineDistance_equator h0 h1, distance_equator h0 h1]
  ring

/-- C9 amended witness: the exact-ratio identity at the one-degree pair. -/
theorem equal_central_angle_different_radii_witness :
    distance 0 0 0 1 * 6371000 = haversineDistance 0 0 0 1 * 6378137 :=
  equal_central_angle_different_radii 1 (by norm_num) (by norm_num)

/-- C10: the classifier is antitone in the zone set: a route SAFE against
a zone set is SAFE against any subset of it. -/
theorem classifier_antitone_in_zones :
    ∀ (zs zs2 : List Zone) (coords : List (ℝ × ℝ)),
      zs ⊆ zs2 → isRouteUnsafe zs2 coords = false → isRouteUnsafe zs coords = false := by
  intro zs zs2 coords hsub hsafe
  rw [isRouteUnsafe_eq_false_iff] at hsafe ⊢
  intro c hc z hz
  exact hsafe c hc z (hsub hz)

/-- C10 witness: applied to the empty subset of `[testZone]` and the safe
antipodal route. -/
theorem classifier_antitone_in_zones_witness :
    isRouteUnsafe [] routeFar = false :=
  classifier_antitone_in_zones [] [testZone] routeFar (by simp) safe_routeFar
